import Mathlib

/-!
Verification development for the films_api repository.

The data-access layer (src/datamanager/sqlite_data_manager.py) is embedded
shallowly: the three SQLite tables (users, movies, user_movies) become lists
of rows, auto-increment primary keys become explicit counters, and each
method of SQLiteDataManager becomes a Lean function on that state.
SQLAlchemy's `.one()` raising NoResultFound / MultipleResultsFound and the
IntegrityError raised on commit by the `unique=True` constraint on
users.name are modelled with an explicit error type.

The OMDb normalization helper (src/utils/omdb_api_data_fetcher.py,
fetch_omdb_data) is embedded from the point where the HTTP response has been
received and JSON-decoded: the payload is the record of the five fields the
code extracts with dict.get (each possibly absent) plus the Response=="False"
flag. Python floats are modelled as exact rationals; Python int()/float()
parsing is modelled for sign/digits/decimal-point forms (exponents, inf/nan
and non-ASCII digits are outside the model).
-/

namespace FilmsApi

/-- Row of the `users` table: integer primary key and the (unique) name. -/
structure UserRow where
  id : Nat
  name : String
deriving Repr, DecidableEq

/-- Row of the `movies` table. `rating` (a Python float in the source) is
modelled as an exact rational. -/
structure MovieRow where
  id : Nat
  name : String
  director : String
  year : Int
  rating : Rat
  poster : String
deriving Repr, DecidableEq

/-- Row of the `user_movies` junction table. -/
structure UserMovieRow where
  id : Nat
  user_id : Nat
  movie_id : Nat
deriving Repr, DecidableEq

/-- Database state: the three tables plus the auto-increment counters that
SQLite maintains for the integer primary keys. -/
structure DB where
  users : List UserRow
  movies : List MovieRow
  user_movies : List UserMovieRow
  next_user_id : Nat
  next_movie_id : Nat
  next_user_movie_id : Nat
deriving Repr, DecidableEq

/-- Errors surfaced by the data layer: SQLAlchemy raises NoResultFound /
MultipleResultsFound from `.one()`, and SQLite raises IntegrityError on
commit when the `unique=True` constraint on `users.name` is violated. -/
inductive DbError where
  | noResultFound
  | multipleResultsFound
  | integrityError
deriving Repr, DecidableEq

/-- SQLAlchemy `Query.one()`: exactly one matching row, else an error. -/
def queryOne {α : Type} (rows : List α) : Except DbError α :=
  match rows with
  | [row] => .ok row
  | [] => .error .noResultFound
  | _ => .error .multipleResultsFound

/-- Model of `SQLiteDataManager.add_user`: inserts a User row and commits. The code
itself performs no duplicate check; the `unique=True` constraint on the
`name` column makes the commit raise IntegrityError when the name is taken. -/
def add_user (db : DB) (user : String) : Except DbError DB :=
  if db.users.any (fun u => u.name = user) then
    .error .integrityError
  else
    .ok { db with
          users := db.users ++ [⟨db.next_user_id, user⟩],
          next_user_id := db.next_user_id + 1 }

/-- Model of `SQLiteDataManager.is_available_username`: `filter_by(name=user).first()`,
true when no row matched. SQLite compares TEXT with the default BINARY
collation, so the match is exact (case-sensitive). -/
def is_available_username (db : DB) (user : String) : Bool :=
  match (db.users.filter (fun u => u.name = user)).head? with
  | some _ => false
  | none => true

/-- Model of `SQLiteDataManager.user_id_exists`. -/
def user_id_exists (db : DB) (uid : Nat) : Bool :=
  match (db.users.filter (fun u => u.id = uid)).head? with
  | some _ => true
  | none => false

/-- Model of `SQLiteDataManager.add_movie`: unconditionally inserts a new Movie row
(the duplicate check present in an earlier draft is commented out in the
source) and returns the freshly assigned id. -/
def add_movie (db : DB) (nm director : String) (year : Int) (rating : Rat)
    (po : String) : DB × Nat :=
  ({ db with
     movies := db.movies ++ [⟨db.next_movie_id, nm, director, year, rating, po⟩],
     next_movie_id := db.next_movie_id + 1 },
   db.next_movie_id)

/-- Outcome reported by `add_user_movie` (the source prints a distinct
message on each branch). -/
inductive AddUserMovieOutcome where
  | alreadyPaired
  | added
deriving Repr, DecidableEq

/-- Model of `SQLiteDataManager.add_user_movie`: resolves the movie then the user with
`.one()` (raising if absent), then checks `filter_by(user_id, movie_id)
.first()`; when a pairing already exists it returns without inserting,
otherwise it inserts a junction row and commits. -/
def add_user_movie (db : DB) (uid mid : Nat) :
    Except DbError (DB × AddUserMovieOutcome) := do
  let _movie ← queryOne (db.movies.filter (fun m => m.id = mid))
  let _user ← queryOne (db.users.filter (fun u => u.id = uid))
  match (db.user_movies.filter
      (fun um => um.user_id = uid ∧ um.movie_id = mid)).head? with
  | some _ => .ok (db, .alreadyPaired)
  | none =>
      .ok ({ db with
             user_movies := db.user_movies ++ [⟨db.next_user_movie_id, uid, mid⟩],
             next_user_movie_id := db.next_user_movie_id + 1 },
           .added)

/-- Model of `SQLiteDataManager.get_movie_from_id`: `filter(Movie.id == movie_id)
.one()`. -/
def get_movie_from_id (db : DB) (mid : Nat) : Except DbError MovieRow :=
  queryOne (db.movies.filter (fun m => m.id = mid))

/-- Model of `SQLiteDataManager.update_movie`: `Query.update` sets the five mutable
columns on every row matching the id and commits. No row matching is not an
error: the UPDATE simply affects zero rows. -/
def update_movie (db : DB) (movie : MovieRow) : DB :=
  { db with
    movies := db.movies.map (fun m =>
      if m.id = movie.id then
        { m with
          name := movie.name, director := movie.director,
          year := movie.year, rating := movie.rating,
          poster := movie.poster }
      else m) }

/-- Model of `SQLiteDataManager.delete_movie`: resolves the junction row for the pair
and the movie row with `.one()` (raising NoResultFound if absent), then
deletes both objects (by primary key) and commits. -/
def delete_movie (db : DB) (uid mid : Nat) : Except DbError DB := do
  let rel ← queryOne (db.user_movies.filter
      (fun um => um.user_id = uid ∧ um.movie_id = mid))
  let mov ← queryOne (db.movies.filter (fun m => m.id = mid))
  .ok { db with
        user_movies := db.user_movies.filter (fun um => ¬ um.id = rel.id),
        movies := db.movies.filter (fun m => ¬ m.id = mov.id) }

/-- Modelled from the spec: `get_username_from_id` is invoked by the
presentation layer (src/app.py, `data_manager.get_username_from_id`) but its
definition is not among the source files under src/. Spec section 4.1:
"fetch username by id — user identifier — the display name — signals
NotFound if absent". -/
def get_username_from_id (db : DB) (uid : Nat) : Except DbError String :=
  match (db.users.filter (fun u => u.id = uid)).head? with
  | some u => .ok u.name
  | none => .error .noResultFound

/-- At most one junction row per (user, movie) pair. -/
def pairUnique (db : DB) : Prop :=
  ∀ uid mid : Nat,
    (db.user_movies.filter
      (fun um => um.user_id = uid ∧ um.movie_id = mid)).length ≤ 1

/-! ## OMDb normalization (src/utils/omdb_api_data_fetcher.py) -/

/-- Python exception escaping `fetch_omdb_data`. The only uncaught exception
on the modelled paths is the TypeError from evaluating `',' in name` when
`name` is None. -/
inductive PyErr where
  | typeError
deriving Repr, DecidableEq

/-- The JSON payload as `fetch_omdb_data` sees it after `json.loads`:
`response_false` records `response_dict.get("Response") == "False"`, and the
five fields are the results of the `.get` calls (None when absent). -/
structure OmdbPayload where
  response_false : Bool
  title : Option String
  director : Option String
  year : Option String
  imdbRating : Option String
  poster : Option String
deriving Repr, DecidableEq

/-- Comma removal, `name.translate(str.maketrans('', '', ','))`: drop every comma. -/
def stripCommas (s : String) : String :=
  String.mk (s.data.filter (fun c => ¬ c = ','))

/-- Numeric cleanup, `s.translate(str.maketrans('', '', '-–_'))`: drop every hyphen-minus,
en-dash and underscore before numeric parsing. -/
def numCleanup (s : String) : String :=
  String.mk (s.data.filter (fun c => ¬ (c = '-' ∨ c = '–' ∨ c = '_')))

/-- Leading and trailing whitespace removal, as Python's int()/float()
perform before parsing. -/
def pyStrip (cs : List Char) : List Char :=
  ((cs.dropWhile Char.isWhitespace).reverse.dropWhile Char.isWhitespace).reverse

/-- Value of a list of decimal digits. -/
def digitsVal (cs : List Char) : Nat :=
  cs.foldl (fun a c => a * 10 + (c.toNat - '0'.toNat)) 0

/-- Model of Python `int(s)`: optional sign followed by a non-empty run of
decimal digits, surrounding whitespace ignored. (Underscore digit separators
never reach this point: the cleanup already removed every underscore.) -/
def parsePyInt (s : String) : Option Int :=
  match pyStrip s.data with
  | [] => none
  | c :: rest =>
      if c = '-' then
        if rest ≠ [] ∧ rest.all Char.isDigit then some (-(digitsVal rest : Int))
        else none
      else if c = '+' then
        if rest ≠ [] ∧ rest.all Char.isDigit then some (digitsVal rest : Int)
        else none
      else if (c :: rest).all Char.isDigit then some (digitsVal (c :: rest) : Int)
      else none

/-- Digit forms accepted for the mantissa of Python `float(s)`:
`ddd`, `ddd.ddd`, `ddd.`, `.ddd` (at least one digit overall). -/
def parseFloatBody (cs : List Char) : Option Rat :=
  match cs.splitOn '.' with
  | [ip] =>
      if ip ≠ [] ∧ ip.all Char.isDigit then some ((digitsVal ip : Int) : Rat)
      else none
  | [ip, fp] =>
      if (ip ≠ [] ∨ fp ≠ []) ∧ ip.all Char.isDigit ∧ fp.all Char.isDigit then
        some ((digitsVal ip : Rat) + (digitsVal fp : Rat) / ((10 : Rat) ^ fp.length))
      else none
  | _ => none

/-- Model of Python `float(s)` on sign/digits/decimal-point forms,
surrounding whitespace ignored (exponents, inf and nan are outside the
model; the values in play are IMDb rating strings). -/
def parsePyFloat (s : String) : Option Rat :=
  match pyStrip s.data with
  | [] => none
  | c :: rest =>
      if c = '-' then (parseFloatBody rest).map (fun q => -q)
      else if c = '+' then parseFloatBody rest
      else parseFloatBody (c :: rest)

/-- Floor of a rational (numerator and denominator are already reduced and
the denominator is positive, so flooring integer division gives the floor). -/
def ratFloor (q : Rat) : Int :=
  Int.fdiv q.num (q.den : Int)

/-- Round a rational to the nearest integer, ties to even — the rounding
Python's built-in `round` performs. -/
def pyRoundHalfEven (q : Rat) : Int :=
  if q - (ratFloor q : Rat) < 1 / 2 then ratFloor q
  else if 1 / 2 < q - (ratFloor q : Rat) then ratFloor q + 1
  else if ratFloor q % 2 = 0 then ratFloor q else ratFloor q + 1

/-- Model of `round(x, 1)`: round to one decimal place, ties to even. -/
def pyRound1 (q : Rat) : Rat :=
  ((pyRoundHalfEven (10 * q) : Int) : Rat) / 10

/-- Substituted year string: `if year == 'N/A' or year is None: year = '0'`. -/
def substYear (year : Option String) : Option String :=
  if year = some "N/A" ∨ year = none then some "0" else year

/-- Substituted rating string: `if rating == 'N/A' or year is None:
rating = '0.0'` — the second disjunct tests the already-substituted year
variable (a slip in the source: it rechecks year, not rating). -/
def substRating (year1 rating : Option String) : Option String :=
  if rating = some "N/A" ∨ year1 = none then some "0.0" else rating

/-- Model of `fetch_omdb_data`, from the point where the JSON payload is in hand
(the request/HTTP-error paths all return None and are out of scope of the
claims). Mirrors the source order: Response=="False" bail; comma strip on
the title (evaluating `',' in name` raises TypeError when the title is
None); N/A-substitution of year then rating; the `None in [...]` bail; the
cleanup-and-parse of year then rating inside `try/except ValueError`, whose
handler returns None. -/
def fetch_omdb_data (p : OmdbPayload) :
    Except PyErr (Option (String × String × Int × Rat × String)) :=
  if p.response_false then .ok none
  else
    match p.title with
    | none => .error .typeError
    | some t =>
      match p.director, substYear p.year,
          substRating (substYear p.year) p.imdbRating, p.poster with
      | some d, some ys, some rs, some po =>
          match parsePyInt (numCleanup ys) with
          | none => .ok none
          | some y =>
              match parsePyFloat (numCleanup rs) with
              | none => .ok none
              | some q =>
                  .ok (some ((if ',' ∈ t.data then stripCommas t else t),
                             d, y, pyRound1 q, po))
      | _, _, _, _ => .ok none

/-! ## Concrete states and payloads used to evaluate the theorems -/

/-- Empty database (fresh moviesdb.sqlite). -/
def dbEmpty : DB :=
  { users := [], movies := [], user_movies := [],
    next_user_id := 0, next_movie_id := 0, next_user_movie_id := 0 }

/-- Database resulting from `add_user dbEmpty "Mile"`. -/
def dbMile : DB :=
  { users := [⟨0, "Mile"⟩], movies := [], user_movies := [],
    next_user_id := 1, next_movie_id := 0, next_user_movie_id := 0 }

/-- One user, one movie, one junction row pairing them. -/
def dbPaired : DB :=
  { users := [⟨1, "Mile"⟩],
    movies := [⟨1, "Titanic", "James Cameron", 1997, 87 / 10, "poster-url"⟩],
    user_movies := [⟨1, 1, 1⟩],
    next_user_id := 2, next_movie_id := 2, next_user_movie_id := 2 }

/-- Same shape as `dbPaired`, used for the update-movie theorems. -/
def dbC4 : DB :=
  { users := [⟨1, "Mile"⟩],
    movies := [⟨1, "Titanic", "James Cameron", 1997, 87 / 10, "poster-url"⟩],
    user_movies := [⟨1, 1, 1⟩],
    next_user_id := 2, next_movie_id := 2, next_user_movie_id := 2 }

/-- A movie object whose id (5) references no row of `dbC4.movies`. -/
def movieGhost : MovieRow :=
  ⟨5, "Ghost", "Jerry Zucker", 1990, 7, "ghost-url"⟩

/-- One user named with a capital letter, for the case-sensitivity check. -/
def dbAlice : DB :=
  { users := [⟨1, "Alice"⟩], movies := [], user_movies := [],
    next_user_id := 2, next_movie_id := 0, next_user_movie_id := 0 }

/-- Payload with the year reported not-available and an en-dash in the
rating string. -/
def omdbNA : OmdbPayload :=
  ⟨false, some "Movie, The", some "Dir", some "N/A", some "8.5–", some "Pst"⟩

/-- Payload with the Title field absent and a non-numeric year. -/
def omdbNoTitle : OmdbPayload :=
  ⟨false, none, some "Dir", some "abc", some "7.0", some "Pst"⟩

/-- Payload whose year still fails to parse after cleanup. -/
def omdbBadYear : OmdbPayload :=
  ⟨false, some "Foo", some "Dir", some "20x", some "7.0", some "Pst"⟩

/-- Payload with a negative-looking year string. -/
def omdbNeg : OmdbPayload :=
  ⟨false, some "T", some "D", some "-500", some "7.0", some "P"⟩

/-- Payload with a range-shaped year string. -/
def omdbRange : OmdbPayload :=
  ⟨false, some "T", some "D", some "2010–2015", some "7.0", some "P"⟩

/-! ## Theorems -/

/-- C1: two calls to `add_movie` with identical field values — the situation
created when two different users add the same film — both succeed and append
two independent rows with distinct system-assigned identifiers; no existing
row is deduplicated or overwritten (the prior table is preserved as a
prefix, users and junction rows untouched). -/
theorem C1_add_movie_no_dedup (db : DB) (nm d : String) (y : Int) (r : Rat)
    (po : String) :
    (add_movie db nm d y r po).2 ≠
      (add_movie (add_movie db nm d y r po).1 nm d y r po).2 ∧
    (add_movie (add_movie db nm d y r po).1 nm d y r po).1.movies =
      db.movies ++
        [⟨(add_movie db nm d y r po).2, nm, d, y, r, po⟩,
         ⟨(add_movie (add_movie db nm d y r po).1 nm d y r po).2, nm, d, y, r, po⟩] ∧
    (add_movie (add_movie db nm d y r po).1 nm d y r po).1.users = db.users ∧
    (add_movie (add_movie db nm d y r po).1 nm d y r po).1.user_movies =
      db.user_movies := by
  refine ⟨?_, ?_, rfl, rfl⟩
  · simp [add_movie]
  · simp [add_movie]

/-- C6: after a successful `add_user` with name N, a second `add_user` call
with the same N fails with the IntegrityError that the `unique=True`
constraint on `users.name` raises at commit (the DuplicateName signal of the
spec) instead of inserting a second row or silently succeeding. -/
theorem C6_add_user_duplicate_name (db db2 : DB) (nm : String)
    (h : add_user db nm = .ok db2) :
    add_user db2 nm = .error DbError.integrityError := by
  unfold add_user at h ⊢
  split at h
  · cases h
  · rw [Except.ok.injEq] at h
    subst h
    simp

/-- C6 witness: creating "Mile" twice starting from the empty database. -/
theorem C6_add_user_duplicate_name_witness :
    add_user dbMile "Mile" = .error DbError.integrityError :=
  C6_add_user_duplicate_name dbEmpty dbMile "Mile" rfl

/-- C7: `is_available_username` returns true iff no existing User row has
exactly that display name; the comparison is exact String equality
(SQLite BINARY collation), so names differing only in case are distinct. -/
theorem C7_is_available_username_iff (db : DB) (nm : String) :
    is_available_username db nm = true ↔ ∀ u ∈ db.users, u.name ≠ nm := by
  unfold is_available_username
  rcases hf : db.users.filter (fun u => u.name = nm) with _ | ⟨v, t⟩
  · rw [hf]
    simp only [List.head?_nil]
    rw [List.filter_eq_nil_iff] at hf
    constructor
    · intro _ u hu hname
      exact hf u hu (by simp [hname])
    · intro _
      trivial
  · rw [hf]
    simp only [List.head?_cons]
    constructor
    · intro h
      cases h
    · intro hall
      have hv : v ∈ db.users.filter (fun u => u.name = nm) := by
        rw [hf]; exact List.mem_cons_self v t
      have hv' := List.mem_filter.mp hv
      exact absurd (by simpa using hv'.2) (hall v hv'.1)

/-- C7 witness: with only "Alice" registered, the lower-case "alice" is
available while "Alice" itself is taken. -/
theorem C7_is_available_username_iff_witness :
    is_available_username dbAlice "alice" = true ∧
    ¬ is_available_username dbAlice "Alice" = true :=
  ⟨(C7_is_available_username_iff dbAlice "alice").mpr (by decide),
   fun h => by
     have := (C7_is_available_username_iff dbAlice "Alice").mp h
     exact absurd rfl (this ⟨1, "Alice"⟩ (by decide))⟩

/-- C4 counterexample: movie id 5 references no row of `dbC4.movies`, yet
`update_movie` does not signal NotFound — it completes as a silent no-op
returning the database unchanged (its result carries no failure outcome at
all: `Query.update` matching zero rows is not an error in the source). -/
theorem C4_counterexample :
    dbC4.movies.filter (fun m => m.id = movieGhost.id) = [] ∧
    update_movie dbC4 movieGhost = dbC4 :=
  ⟨rfl, rfl⟩

/-- C4 amended: `update_movie` is a full replacement — it rewrites the five
mutable fields of every row whose id matches, leaves every id and the
ownership table unchanged, and leaves rows with other ids untouched; but
when the identifier references no existing row it silently returns the
database unchanged instead of signalling NotFound. -/
theorem C4_update_movie_full_replacement (db : DB) (movie : MovieRow) :
    (update_movie db movie).user_movies = db.user_movies ∧
    (update_movie db movie).movies.map (fun m => m.id) =
      db.movies.map (fun m => m.id) ∧
    (∀ m ∈ db.movies, ¬ m.id = movie.id → m ∈ (update_movie db movie).movies) ∧
    (∀ m ∈ (update_movie db movie).movies, m.id = movie.id →
        m.name = movie.name ∧ m.director = movie.director ∧
        m.year = movie.year ∧ m.rating = movie.rating ∧
        m.poster = movie.poster) ∧
    (db.movies.filter (fun m => m.id = movie.id) = [] →
        update_movie db movie = db) := by
  refine ⟨rfl, ?_, ?_, ?_, ?_⟩
  · unfold update_movie
    rw [List.map_map]
    refine List.map_congr_left ?_
    intro m _
    by_cases hm : m.id = movie.id <;> simp [hm]
  · intro m hm hne
    unfold update_movie
    refine List.mem_map.mpr ⟨m, hm, ?_⟩
    simp [hne]
  · intro m hm hid
    unfold update_movie at hm
    rcases List.mem_map.mp hm with ⟨m0, _, hm0⟩
    by_cases h0 : m0.id = movie.id
    · rw [if_pos h0] at hm0
      subst hm0
      exact ⟨rfl, rfl, rfl, rfl, rfl⟩
    · rw [if_neg h0] at hm0
      subst hm0
      exact absurd hid h0
  · intro hnil
    rw [List.filter_eq_nil_iff] at hnil
    have hmap : db.movies.map (fun m =>
        if m.id = movie.id then
          { m with
            name := movie.name, director := movie.director,
            year := movie.year, rating := movie.rating,
            poster := movie.poster }
        else m) = db.movies := by
      have := List.map_congr_left (l := db.movies)
        (f := fun m : MovieRow =>
          if m.id = movie.id then
            { m with
              name := movie.name, director := movie.director,
              year := movie.year, rating := movie.rating,
              poster := movie.poster }
          else m)
        (g := id)
        (fun m hm => by
          have : ¬ m.id = movie.id := by simpa using hnil m hm
          simp [this])
      simpa using this
    unfold update_movie
    rw [hmap]

/-- C4 witness: on `dbC4`, updating with the absent id 5 returns `dbC4`
itself. -/
theorem C4_update_movie_full_replacement_witness :
    update_movie dbC4 movieGhost = dbC4 :=
  (C4_update_movie_full_replacement dbC4 movieGhost).2.2.2.2 rfl

/-- C2: when both identifiers resolve and a junction row for the
(user, movie) pair already exists, `add_user_movie` reports the
already-paired outcome back to the caller and leaves the database unchanged
(no duplicate row); moreover the operation preserves the invariant that at
most one junction row exists per (user, movie) pair. -/
theorem C2_add_user_movie_idempotent (db : DB) (uid mid : Nat)
    (hm : (db.movies.filter (fun m => m.id = mid)).length = 1)
    (hu : (db.users.filter (fun u => u.id = uid)).length = 1)
    (hex : db.user_movies.filter
      (fun um => um.user_id = uid ∧ um.movie_id = mid) ≠ []) :
    add_user_movie db uid mid = .ok (db, .alreadyPaired) ∧
    ∀ db2 db3 : DB, ∀ res, pairUnique db2 →
      add_user_movie db2 uid mid = .ok (db3, res) → pairUnique db3 := by
  constructor
  · rcases List.length_eq_one.mp hm with ⟨m, hm1⟩
    rcases List.length_eq_one.mp hu with ⟨u, hu1⟩
    unfold add_user_movie
    rw [hm1, hu1]
    rcases hh : (db.user_movies.filter
        (fun um => um.user_id = uid ∧ um.movie_id = mid)).head? with _ | um
    · rw [List.head?_eq_none_iff] at hh
      exact absurd hh hex
    · rw [hh]
      rfl
  · intro db2 db3 res hpu heq
    unfold add_user_movie at heq
    rcases hqm : queryOne (db2.movies.filter (fun m => m.id = mid)) with e | m
    · rw [hqm] at heq
      simp only [Bind.bind, Except.bind] at heq
      cases heq
    · rw [hqm] at heq
      rcases hqu : queryOne (db2.users.filter (fun u => u.id = uid)) with e | u
      · rw [hqu] at heq
        simp only [Bind.bind, Except.bind] at heq
        cases heq
      · rw [hqu] at heq
        simp only [Bind.bind, Except.bind] at heq
        rcases hh : (db2.user_movies.filter
            (fun um => um.user_id = uid ∧ um.movie_id = mid)).head? with _ | um
        · -- no existing pairing: a fresh junction row is appended
          rw [hh] at heq
          rw [Except.ok.injEq] at heq
          have h3 : db3 = { db2 with
              user_movies :=
                db2.user_movies ++ [⟨db2.next_user_movie_id, uid, mid⟩],
              next_user_movie_id := db2.next_user_movie_id + 1 } :=
            (congrArg Prod.fst heq).symm
          subst h3
          intro u2 m2
          simp only [List.filter_append, List.length_append]
          by_cases hc : u2 = uid ∧ m2 = mid
          · obtain ⟨hc1, hc2⟩ := hc
            subst hc1; subst hc2
            rw [List.head?_eq_none_iff] at hh
            rw [hh]
            simp
          · have hrow : ¬ ((⟨db2.next_user_movie_id, uid, mid⟩ :
                UserMovieRow).user_id = u2 ∧
                (⟨db2.next_user_movie_id, uid, mid⟩ :
                UserMovieRow).movie_id = m2) := by
              intro hx
              exact hc ⟨hx.1.symm, hx.2.symm⟩
            have := hpu u2 m2
            simp only [List.filter_cons, List.filter_nil, hrow]
            simp only [decide_eq_true_eq]
            simpa using this
        · -- existing pairing: the database is returned unchanged
          rw [hh] at heq
          rw [Except.ok.injEq] at heq
          have h3 : db3 = db2 := (congrArg Prod.fst heq).symm
          subst h3
          exact hpu

/-- C2 witness: on `dbPaired` (user 1 already paired with movie 1), the
call reports already-paired and changes nothing. -/
theorem C2_add_user_movie_idempotent_witness :
    add_user_movie dbPaired 1 1 = .ok (dbPaired, .alreadyPaired) :=
  (C2_add_user_movie_idempotent dbPaired 1 1 (by decide) (by decide)
    (by decide)).1

/-- C3: for an existing pairing (user, movie) — exactly one junction row for
the pair and one movie row with that id — `delete_movie` succeeds and
removes both the junction row and the movie row, after which
`get_movie_from_id` signals NotFound; and when no such pairing exists,
`delete_movie` itself signals NotFound. -/
theorem C3_delete_movie_removes_both (db : DB) (uid mid : Nat)
    (hrel : (db.user_movies.filter
      (fun um => um.user_id = uid ∧ um.movie_id = mid)).length = 1)
    (hmov : (db.movies.filter (fun m => m.id = mid)).length = 1) :
    (∃ db3, delete_movie db uid mid = .ok db3 ∧
        get_movie_from_id db3 mid = .error DbError.noResultFound ∧
        db3.user_movies.filter
          (fun um => um.user_id = uid ∧ um.movie_id = mid) = []) ∧
    ∀ db2 : DB,
      db2.user_movies.filter
        (fun um => um.user_id = uid ∧ um.movie_id = mid) = [] →
      delete_movie db2 uid mid = .error DbError.noResultFound := by
  constructor
  · rcases List.length_eq_one.mp hrel with ⟨rel, hrel1⟩
    rcases List.length_eq_one.mp hmov with ⟨mov, hmov1⟩
    have hmid : mov.id = mid := by
      have hmem : mov ∈ db.movies.filter (fun m => m.id = mid) := by
        rw [hmov1]; exact List.mem_cons_self _ _
      simpa using (List.mem_filter.mp hmem).2
    refine ⟨{ db with
        user_movies := db.user_movies.filter (fun um => ¬ um.id = rel.id),
        movies := db.movies.filter (fun m => ¬ m.id = mov.id) }, ?_, ?_, ?_⟩
    · unfold delete_movie
      rw [hrel1, hmov1]
      rfl
    · have hnil : (db.movies.filter (fun m => ¬ m.id = mov.id)).filter
          (fun m => m.id = mid) = [] := by
        rw [List.filter_eq_nil_iff]
        intro a ha
        have h2 := (List.mem_filter.mp ha).2
        simp only [decide_eq_true_eq] at h2 ⊢
        rw [hmid] at h2
        exact h2
      unfold get_movie_from_id
      rw [hnil]
      rfl
    · rw [List.filter_eq_nil_iff]
      intro a ha
      have h1 := List.mem_filter.mp ha
      have hne : ¬ a.id = rel.id := by simpa using h1.2
      simp only [decide_eq_true_eq]
      intro hp
      have hmem : a ∈ db.user_movies.filter
          (fun um => um.user_id = uid ∧ um.movie_id = mid) :=
        List.mem_filter.mpr ⟨h1.1, by simpa using hp⟩
      rw [hrel1] at hmem
      exact hne (congrArg UserMovieRow.id (List.mem_singleton.mp hmem))
  · intro db2 hnil
    unfold delete_movie
    rw [hnil]
    rfl

/-- C3 witness: deleting movie 1 for user 1 on `dbPaired` empties both the
movies and the junction table, and a re-fetch signals NotFound. -/
theorem C3_delete_movie_removes_both_witness :
    (∃ db3, delete_movie dbPaired 1 1 = .ok db3 ∧
        get_movie_from_id db3 1 = .error DbError.noResultFound ∧
        db3.user_movies.filter
          (fun um => um.user_id = 1 ∧ um.movie_id = 1) = []) ∧
    ∀ db2 : DB,
      db2.user_movies.filter
        (fun um => um.user_id = 1 ∧ um.movie_id = 1) = [] →
      delete_movie db2 1 1 = .error DbError.noResultFound :=
  C3_delete_movie_removes_both dbPaired 1 1 (by decide) (by decide)

/-- C5: the fetch-username-by-id operation (modelled from the spec, since
only its call sites are among the source files) returns the display name of
the user with the given identifier, and signals NotFound when no User row
has that identifier. -/
theorem C5_get_username_from_id_contract (db : DB) (uid : Nat) (u : UserRow)
    (hu : u ∈ db.users) (hid : u.id = uid)
    (hnd : (db.users.map (fun v => v.id)).Nodup) :
    get_username_from_id db uid = .ok u.name ∧
    ∀ db2 : DB, db2.users.filter (fun v => v.id = uid) = [] →
      get_username_from_id db2 uid = .error DbError.noResultFound := by
  constructor
  · unfold get_username_from_id
    rcases hf : db.users.filter (fun v => v.id = uid) with _ | ⟨w, t⟩
    · rw [List.filter_eq_nil_iff] at hf
      exact absurd hid (by simpa using hf u hu)
    · have hwmem : w ∈ db.users.filter (fun v => v.id = uid) := by
        rw [hf]; exact List.mem_cons_self _ _
      have hw := List.mem_filter.mp hwmem
      have hwid : w.id = uid := by simpa using hw.2
      have hwu : w = u :=
        List.inj_on_of_nodup_map hnd hw.1 hu (by rw [hwid, hid])
      rw [hf]
      simp only [List.head?_cons]
      rw [hwu]
  · intro db2 hnil
    unfold get_username_from_id
    rw [hnil]
    rfl

/-- C5 witness: on `dbPaired`, user id 1 resolves to "Mile"; on any table
with no user id 1 the fetch signals NotFound. -/
theorem C5_get_username_from_id_contract_witness :
    get_username_from_id dbPaired 1 = .ok "Mile" ∧
    ∀ db2 : DB, db2.users.filter (fun v => v.id = 1) = [] →
      get_username_from_id db2 1 = .error DbError.noResultFound :=
  C5_get_username_from_id_contract dbPaired 1 ⟨1, "Mile"⟩ (by decide) rfl
    (by decide)

/-! ### Properties of the numeric cleanup and parsing -/

/-- No hyphen-minus character survives the cleanup. -/
theorem dash_not_mem_numCleanup (s : String) : '-' ∉ (numCleanup s).data := by
  intro h
  have h2 := (List.mem_filter.mp h).2
  simp at h2

/-- Whitespace stripping only drops characters. -/
theorem pyStrip_subset (cs : List Char) : pyStrip cs ⊆ cs := by
  intro c hc
  unfold pyStrip at hc
  rw [List.mem_reverse] at hc
  have h1 := (List.dropWhile_sublist _).subset hc
  rw [List.mem_reverse] at h1
  exact (List.dropWhile_sublist _).subset h1

/-- A string without a hyphen-minus can only parse to a non-negative int. -/
theorem parsePyInt_nonneg (s : String) (v : Int)
    (hnd : '-' ∉ s.data) (h : parsePyInt s = some v) : 0 ≤ v := by
  unfold parsePyInt at h
  split at h
  · cases h
  · next c rest hps =>
    by_cases hc : c = '-'
    · subst hc
      exact absurd (pyStrip_subset s.data (hps ▸ List.mem_cons_self _ _)) hnd
    · rw [if_neg hc] at h
      by_cases hc2 : c = '+'
      · rw [if_pos hc2] at h
        split at h
        · rw [Option.some.injEq] at h
          subst h
          exact Int.natCast_nonneg _
        · cases h
      · rw [if_neg hc2] at h
        split at h
        · rw [Option.some.injEq] at h
          subst h
          exact Int.natCast_nonneg _
        · cases h

/-- The mantissa parser only produces non-negative values. -/
theorem parseFloatBody_nonneg (cs : List Char) (q : Rat)
    (h : parseFloatBody cs = some q) : 0 ≤ q := by
  unfold parseFloatBody at h
  split at h
  · split at h
    · rw [Option.some.injEq] at h
      subst h
      positivity
    · cases h
  · split at h
    · rw [Option.some.injEq] at h
      subst h
      positivity
    · cases h
  · cases h

/-- A string without a hyphen-minus can only parse to a non-negative
rational. -/
theorem parsePyFloat_nonneg (s : String) (q : Rat)
    (hnd : '-' ∉ s.data) (h : parsePyFloat s = some q) : 0 ≤ q := by
  unfold parsePyFloat at h
  split at h
  · cases h
  · next c rest hps =>
    by_cases hc : c = '-'
    · subst hc
      exact absurd (pyStrip_subset s.data (hps ▸ List.mem_cons_self _ _)) hnd
    · rw [if_neg hc] at h
      by_cases hc2 : c = '+'
      · rw [if_pos hc2] at h
        exact parseFloatBody_nonneg rest q h
      · rw [if_neg hc2] at h
        exact parseFloatBody_nonneg (c :: rest) q h

/-- Floor of a non-negative rational is non-negative. -/
theorem ratFloor_nonneg (q : Rat) (h : 0 ≤ q) : 0 ≤ ratFloor q := by
  unfold ratFloor
  apply Int.fdiv_nonneg
  · exact Rat.num_nonneg.mpr h
  · exact_mod_cast Nat.zero_le q.den

/-- Half-even rounding of a non-negative rational is non-negative. -/
theorem pyRoundHalfEven_nonneg (q : Rat) (h : 0 ≤ q) :
    0 ≤ pyRoundHalfEven q := by
  have h0 := ratFloor_nonneg q h
  unfold pyRoundHalfEven
  split
  · exact h0
  · split
    · omega
    · split
      · exact h0
      · omega

/-- Rounding to one decimal preserves non-negativity. -/
theorem pyRound1_nonneg (q : Rat) (h : 0 ≤ q) : 0 ≤ pyRound1 q := by
  unfold pyRound1
  apply div_nonneg
  · exact_mod_cast pyRoundHalfEven_nonneg (10 * q) (by positivity)
  · norm_num

/-- The rounded rating is an integer number of tenths. -/
theorem pyRound1_tenths (q : Rat) : ∃ k : Int, pyRound1 q = (k : Rat) / 10 :=
  ⟨pyRoundHalfEven (10 * q), rfl⟩

/-- C8: when the upstream year field is "N/A" and the rating string (for
instance one carrying an en-dash) cleans up to a parsable float, the lookup
does not fail: it substitutes the sentinel year 0 and returns the normalized
tuple with the rating rounded to one decimal place (an integer number of
tenths). -/
theorem C8_na_year_sentinel (p : OmdbPayload) (t d po rs : String)
    (hresp : p.response_false = false) (ht : p.title = some t)
    (hd : p.director = some d) (hpo : p.poster = some po)
    (hy : p.year = some "N/A") (hr : p.imdbRating = some rs)
    (hrs : ¬ rs = "N/A")
    (hq : (parsePyFloat (numCleanup rs)).isSome = true) :
    ∃ q : Rat, parsePyFloat (numCleanup rs) = some q ∧
      fetch_omdb_data p =
        .ok (some ((if ',' ∈ t.data then stripCommas t else t), d, 0,
                   pyRound1 q, po)) ∧
      ∃ k : Int, pyRound1 q = (k : Rat) / 10 := by
  rcases Option.isSome_iff_exists.mp hq with ⟨q, hq1⟩
  refine ⟨q, hq1, ?_, pyRound1_tenths q⟩
  have hsy : substYear p.year = some "0" := by
    rw [hy]; rfl
  have hsr : substRating (substYear p.year) p.imdbRating = some rs := by
    rw [hsy, hr]
    unfold substRating
    rw [if_neg]
    simp [hrs]
  have hpi : parsePyInt (numCleanup "0") = some 0 := rfl
  unfold fetch_omdb_data
  rw [hresp, ht, hd, hpo, hsr, hsy]
  simp only [Bool.false_eq_true, if_false]
  rw [hpi, hq1]

/-- C8 witness: payload `omdbNA` (year "N/A", rating "8.5–"): the fetch
succeeds with sentinel year 0 and the cleaned rating. -/
theorem C8_na_year_sentinel_witness :
    ∃ q : Rat, parsePyFloat (numCleanup "8.5–") = some q ∧
      fetch_omdb_data omdbNA =
        .ok (some ((if ',' ∈ "Movie, The".data then stripCommas "Movie, The"
                    else "Movie, The"), "Dir", 0, pyRound1 q, "Pst")) ∧
      ∃ k : Int, pyRound1 q = (k : Rat) / 10 :=
  C8_na_year_sentinel omdbNA "Movie, The" "Dir" "Pst" "8.5–" rfl rfl rfl rfl
    rfl rfl (by decide) rfl

/-- C9 counterexample: on a payload whose Title field is absent and whose
year string "abc" still fails to parse after cleanup, `fetch_omdb_data`
does not return the corrupt-entry outcome None — evaluating the comma test
on the absent title propagates a TypeError. -/
theorem C9_counterexample :
    parsePyInt (numCleanup "abc") = none ∧
    fetch_omdb_data omdbNoTitle = .error PyErr.typeError :=
  ⟨rfl, rfl⟩

/-- C9 amended: provided the Title field is present, every payload whose
year or rating string — after the N/A substitution and the cleanup — still
fails to parse yields the corrupt-entry outcome None, and no exception
propagates. -/
theorem C9_parse_failure_yields_none (p : OmdbPayload) (t ys rs : String)
    (ht : p.title = some t)
    (hy : substYear p.year = some ys)
    (hr : substRating (substYear p.year) p.imdbRating = some rs)
    (hfail : parsePyInt (numCleanup ys) = none ∨
             parsePyFloat (numCleanup rs) = none) :
    fetch_omdb_data p = .ok none := by
  unfold fetch_omdb_data
  by_cases hresp : p.response_false
  · rw [hresp]
    rfl
  · rw [Bool.not_eq_true] at hresp
    rw [hresp, ht, hr, hy]
    simp only [Bool.false_eq_true, if_false]
    rcases hD : p.director with _ | d
    · rfl
    · rcases hP : p.poster with _ | po
      · rfl
      · dsimp only
        rcases hfail with hf | hf
        · rw [hf]
        · rcases hpi : parsePyInt (numCleanup ys) with _ | y
          · rfl
          · dsimp only
            rw [hf]

/-- C9 witness: a present title with the unparsable year "20x" yields None. -/
theorem C9_parse_failure_yields_none_witness :
    fetch_omdb_data omdbBadYear = .ok none :=
  C9_parse_failure_yields_none omdbBadYear "Foo" "20x" "7.0" rfl rfl rfl
    (Or.inl rfl)

/-- C10: since the cleanup removes every '-', '–' and '_' before parsing, a
successful fetch can never carry a negative year or a negative rating; in
particular year "-500" yields the positive 500 and the range "2010–2015"
collapses to the single integer 20102015. -/
theorem C10_cleanup_never_negative :
    (∀ (p : OmdbPayload) (nm d : String) (y : Int) (r : Rat) (po : String),
        fetch_omdb_data p = .ok (some (nm, d, y, r, po)) → 0 ≤ y ∧ 0 ≤ r) ∧
    (∃ r : Rat, fetch_omdb_data omdbNeg = .ok (some ("T", "D", 500, r, "P"))) ∧
    (∃ r : Rat, fetch_omdb_data omdbRange =
        .ok (some ("T", "D", 20102015, r, "P"))) := by
  refine ⟨?_, ⟨_, rfl⟩, ⟨_, rfl⟩⟩
  intro p nm d y r po h
  unfold fetch_omdb_data at h
  split at h
  · simp at h
  · split at h
    · cases h
    · split at h
      · next d1 ys rs po1 hD hY hR hP =>
        rcases hpi : parsePyInt (numCleanup ys) with _ | y1
        · rw [hpi] at h
          simp at h
        · rw [hpi] at h
          rcases hpf : parsePyFloat (numCleanup rs) with _ | q
          · rw [hpf] at h
            simp at h
          · rw [hpf] at h
            simp only [Except.ok.injEq, Option.some.injEq, Prod.mk.injEq] at h
            obtain ⟨-, -, hyv, hrv, -⟩ := h
            constructor
            · rw [← hyv]
              exact parsePyInt_nonneg (numCleanup ys) y1
                (dash_not_mem_numCleanup ys) hpi
            · rw [← hrv]
              exact pyRound1_nonneg q
                (parsePyFloat_nonneg (numCleanup rs) q
                  (dash_not_mem_numCleanup rs) hpf)
      · simp at h

end FilmsApi
